import Mathlib

/-!
Shallow embedding of `datasets_sql/query.py` (the `query` function and its
helpers) and proofs about it.

External collaborators (the DuckDB engine, the `datasets` library's
`Dataset`/`ArrowWriter`/`Hasher` classes, the file system, Python's frame
inspection) are modelled as explicit data: the engine's behaviour, the
caller's variable scope and the initial file system are fields of an
environment record, and every file-system or engine side effect of a run is
recorded both in a final file-system value and in an event trace.
-/

namespace DSQL

/-- Python whitespace test used by `str.strip` (ASCII subset suffices for the
queries considered). -/
def isPySpace (c : Char) : Bool :=
  c = ' ' ∨ c = '\t' ∨ c = '\n' ∨ c = '\r'

/-- `str.strip()` on a character list: drop whitespace from both ends. -/
def pyStrip (s : List Char) : List Char :=
  ((s.dropWhile isPySpace).reverse.dropWhile isPySpace).reverse

/-- ASCII lowercasing, as applied by `str.lower()` to the query strings in
scope here. -/
def pyLower (s : List Char) : List Char :=
  s.map Char.toLower

/-- Does `pat` occur at the head of `s`? (`str.startswith` semantics.) -/
def listStartsWith : List Char → List Char → Bool
  | [], _ => true
  | _ :: _, [] => false
  | p :: ps, c :: cs => p = c ∧ listStartsWith ps cs

/-- `_is_select_query` (query.py line 34): strip, lowercase, and test for the
leading keyword `select`. -/
def isSelectQuery (sqlQuery : String) : Bool :=
  listStartsWith "select".data (pyLower (pyStrip sqlQuery.data))

/-- One step for `str.replace`: emit either the replacement (skipping the
matched pattern) or one character.  The fuel argument is bounded by the
length of the remaining input, so the kernel can evaluate it. -/
def replaceAux (pat repl : List Char) : Nat → List Char → List Char
  | _, [] => []
  | 0, s => s
  | fuel + 1, c :: rest =>
    if pat ≠ [] ∧ listStartsWith pat (c :: rest) then
      repl ++ replaceAux pat repl fuel (List.drop (pat.length - 1) rest)
    else
      c :: replaceAux pat repl fuel rest

/-- Python's `str.replace(old, new)`: leftmost, non-overlapping replacement of
every occurrence.  (The embedding is only ever applied with non-empty `old`:
table names returned by the engine are non-empty identifiers.) -/
def strReplace (s old new : String) : String :=
  String.mk (replaceAux old.data new.data s.data.length s.data)

/-- `str.split(".")` on a character list (used for dotted table names such as
`obj.d`). -/
def splitDotAux : List Char → List Char → List (List Char)
  | acc, [] => [acc.reverse]
  | acc, c :: rest =>
    if c = '.' then acc.reverse :: splitDotAux [] rest
    else splitDotAux (c :: acc) rest

/-- `table_name.split(".")`. -/
def splitDot (s : String) : List String :=
  (splitDotAux [] s.data).map String.mk

/-- `table_name.replace(".", "_")` (query.py lines 129-130). -/
def sanitizeName (s : String) : String :=
  strReplace s "." "_"

/-- `PurePath(p).with_suffix(".db")`: scan the reversed path; if a `.` occurs
in the last component, the suffix after it is replaced, otherwise `.db` is
appended.  Returns the reversed characters before the extension dot when one
exists. -/
def stripExtRev : List Char → Option (List Char)
  | [] => none
  | c :: rest =>
    if c = '.' then some rest
    else if c = '/' then none
    else stripExtRev rest

/-- Path of the DuckDB database file placed next to a cache file
(query.py line 181). -/
def withSuffixDb (p : String) : String :=
  match stripExtRev p.data.reverse with
  | some rest => String.mk rest.reverse ++ ".db"
  | none => p ++ ".db"

/-- The in-memory database marker used by DuckDB. -/
def memDb : String := ":memory:"

/-- Schemas (`datasets.Features`) are consumed as opaque equality-comparable
values: a list of column name / column type pairs. -/
abbrev Features := List (String × String)

/-- Values folded into the `datasets.fingerprint.Hasher` by `query`. -/
inductive HashItem where
  | str : String → HashItem
  | num : Nat → HashItem
  | noneVal : HashItem
  | feats : Features → HashItem
  | bool : Bool → HashItem
deriving DecidableEq, Repr

/-- Rendering of features for the digest encoding. -/
def encodeFeatures (f : Features) : String :=
  String.intercalate "," (f.map (fun p => p.1 ++ ":" ++ p.2))

/-- Rendering of a single hashed value. -/
def encodeHashItem : HashItem → String
  | .str s => "s(" ++ s ++ ")"
  | .num n => "n(" ++ Nat.repr n ++ ")"
  | .noneVal => "none"
  | .feats f => "f(" ++ encodeFeatures f ++ ")"
  | .bool b => "b(" ++ (if b then "T" else "F") ++ ")"

/-- `Hasher.hexdigest()` after the given sequence of `update` calls.  The
external hash (`datasets.fingerprint.Hasher`, MD5-based) is modelled as an
injective stable encoding of the update sequence: the spec requires the hash
to be deterministic for identical structured input, and the cache contract
assumes distinct update sequences do not collide. -/
def hexdigest (items : List HashItem) : String :=
  "md5:" ++ String.intercalate "|" (items.map encodeHashItem)

/-- `QUERY_FUNC_VERSION` (query.py line 20). -/
def QUERY_FUNC_VERSION : String := "1.0"

/-- `_query_func_identifier()` (query.py lines 23-24): module, function name
and version tag. -/
def queryFuncIdentifier : String :=
  "datasets_sql.query.query" ++ "@" ++ QUERY_FUNC_VERSION

/-- The hashed form of the `writer_batch_size` argument (`Optional[int]`). -/
def numItem : Option Nat → HashItem
  | some n => .num n
  | none => .noneVal

/-- The hashed form of the `features` argument (`Optional[Features]`). -/
def featsItem : Option Features → HashItem
  | some f => .feats f
  | none => .noneVal

/-- An input dataset, as consumed by `query`: fingerprint, schema, backing
cache files, optional row-selection overlay (`_indices`), an opaque handle to
the backing Arrow table, metadata, split label and the cache directory that
`_get_cache_file_path` derives new cache paths from. -/
structure DatasetInfo where
  features : Option Features
  taskTemplates : Option (List String)
deriving DecidableEq, Repr

structure Dataset where
  fingerprint : String
  features : Features
  cacheFiles : List String
  indices : Option Unit
  data : Nat
  info : DatasetInfo
  split : Option String
  cacheDir : String
deriving DecidableEq, Repr

/-- `dataset._get_cache_file_path(fingerprint)` (external `datasets` method):
a deterministic path in the dataset's cache directory keyed by the
fingerprint. -/
def cachePathFor (d : Dataset) (fp : String) : String :=
  d.cacheDir ++ "/cache-" ++ fp ++ ".arrow"

/-- Arguments of `query` (query.py lines 38-47), with the source defaults. -/
structure Args where
  sqlQuery : String
  keepInMemory : Bool := false
  loadFromCacheFile : Option Bool := none
  cacheFileName : Option String := none
  writerBatchSize : Option Nat := some 1000
  features : Option Features := none
  disableNullable : Bool := false
  newFingerprint : Option String := none
deriving Repr

/-- The fingerprint computation (query.py lines 111-125): if
`new_fingerprint` is `None`, fold in each resolved dataset's fingerprint in
table order while removing every occurrence of each table name from the
query text, then fold in the stripped query text, `writer_batch_size`,
`features`, `disable_nullable` and the version identifier; otherwise use
the given override unchanged. -/
def computeFingerprint (a : Args) (tableNames : List String) (datasets : List Dataset) : String :=
  match a.newFingerprint with
  | some f => f
  | none =>
    let folded := (tableNames.zip datasets).foldl
      (fun (acc : List HashItem × String) (p : String × Dataset) =>
        (acc.1 ++ [HashItem.str p.2.fingerprint], strReplace acc.2 p.1 ""))
      ([], a.sqlQuery)
    hexdigest (folded.1 ++
      [HashItem.str folded.2, numItem a.writerBatchSize, featsItem a.features,
       HashItem.bool a.disableNullable, HashItem.str queryFuncIdentifier])

/-- The query text with every occurrence of every listed table name removed,
in list order (the stripping performed inside the fingerprint loop). -/
def stripNames (q : String) (names : List String) : String :=
  names.foldl (fun acc n => strReplace acc n "") q

/-- Errors surfaced by `query`.  `streamInterrupt` stands for an arbitrary
exception or `KeyboardInterrupt` raised while the batch stream is being
consumed; `cleanupError` for an error raised by one of the cleanup calls of
the failure path. -/
inductive PyErr where
  | valueError : String → PyErr
  | attributeError : String → PyErr
  | nameError : String → PyErr
  | engineError : String → PyErr
  | streamInterrupt : Nat → PyErr
  | cleanupError : Nat → PyErr
deriving DecidableEq, Repr

/-- A value found in the caller's scope: either a `Dataset` or some other
object carrying named attributes (for dotted table references). -/
inductive PyVal where
  | ds : Dataset → PyVal
  | obj : List (String × PyVal) → PyVal

/-- First binding for a name in the flattened scope (innermost frame first:
locals before globals, inner frames before outer ones). -/
def scopeFind : List (String × PyVal) → String → Option PyVal
  | [], _ => none
  | e :: rest, n => if e.1 = n then some e.2 else scopeFind rest n

/-- `getattr` chained over the attribute-path segments of a dotted name. -/
def getAttrChain : PyVal → List String → Except PyErr PyVal
  | v, [] => .ok v
  | .obj attrs, s :: rest =>
    match scopeFind attrs s with
    | some v => getAttrChain v rest
    | none => .error (.attributeError s)
  | .ds _, s :: _ => .error (.attributeError s)

/-- Resolution of one referenced table name (query.py lines 81-109): split on
`.`, look the root up in the scope, follow the attribute path, and demand a
`Dataset` without an indices mapping. -/
def resolveOne (scope : List (String × PyVal)) (name : String) : Except PyErr Dataset :=
  match splitDot name with
  | [] => .error (.nameError name)
  | mainPart :: subParts =>
    match scopeFind scope mainPart with
    | none => .error (.valueError ("The dataset " ++ name ++ " not found in the namespace."))
    | some v =>
      match getAttrChain v subParts with
      | .error e => .error e
      | .ok (.obj _) => .error (.valueError ("The dataset " ++ name ++ " is not a Dataset object."))
      | .ok (.ds d) =>
        if d.indices.isSome then
          .error (.valueError ("The dataset " ++ name ++
            " has an indices mapping. Please flatten the indices with .flatten_indices()."))
        else .ok d

/-- Resolution of all referenced table names, in table order, stopping at the
first failure. -/
def resolveTables (scope : List (String × PyVal)) : List String → Except PyErr (List Dataset)
  | [] => .ok []
  | n :: rest =>
    match resolveOne scope n with
    | .error e => .error e
    | .ok d =>
      match resolveTables scope rest with
      | .error e => .error e
      | .ok ds => .ok (d :: ds)

/-- A record batch produced by the engine (opaque). -/
abbrev Batch := Nat

/-- Contents of a file on durable storage: a finished Arrow cache file (its
schema, the fingerprint the writer embedded in the file's schema metadata,
and the batches it holds), a DuckDB database file, the staging temporary
file, or an unrelated pre-existing file.  `ArrowWriter` is constructed with
`fingerprint=new_fingerprint` (query.py lines 148, 160) and persists that
value into the arrow file's huggingface schema-metadata entry, so a cache
file carries the query fingerprint it was written under. -/
inductive FileData where
  | arrow : Features → String → List Batch → FileData
  | db : FileData
  | tmp : List Batch → FileData
  | plain : FileData
deriving DecidableEq, Repr

/-- The file system: an association of paths to contents. -/
abbrev FS := List (String × FileData)

def FS.existsFile : FS → String → Bool
  | [], _ => false
  | e :: rest, p => e.1 = p ∨ FS.existsFile rest p

def FS.getFile : FS → String → Option FileData
  | [], _ => none
  | e :: rest, p => if e.1 = p then some e.2 else FS.getFile rest p

def FS.removeFile : FS → String → FS
  | [], _ => []
  | e :: rest, p => if e.1 = p then FS.removeFile rest p else e :: FS.removeFile rest p

def FS.setFile (fs : FS) (p : String) (d : FileData) : FS :=
  (p, d) :: FS.removeFile fs p

/-- Observable side effects of a run, in order: engine connections opened and
closed, tables registered, the query submitted, the fingerprint hash
computed, a cache file loaded, the temporary staging file created and closed,
the batched writer created (seed schema, update-features flag, file target or
`none` for the in-memory buffer), batches written, the writer finalized,
files moved, chmodded or removed. -/
inductive Event where
  | connOpen : String → Event
  | connClose : Event
  | tableRegister : String → Event
  | execQuery : String → Event
  | hashCompute : Event
  | readCacheFile : String → Event
  | tmpCreate : String → Event
  | tmpClose : Event
  | writerCreate : Features → Bool → Option String → Event
  | writerWrite : Batch → Event
  | writerFinalize : Event
  | fileMove : String → String → Event
  | chmodFile : String → Event
  | fileRemove : String → Event
deriving DecidableEq, Repr

/-- Outcomes of the cleanup calls performed on the failure path
(query.py lines 201-212): `none` means the call succeeds, `some e` that it
raises `e`. -/
structure CleanupBehavior where
  finalizeErr : Option PyErr := none
  tmpCloseErr : Option PyErr := none
  tmpRemoveErr : Option PyErr := none
  connCloseErr : Option PyErr := none
  dbRemoveErr : Option PyErr := none
deriving Repr

/-- The environment of one call: the process-wide caching flag, the table
names the engine's introspection extracts from the query, the caller's
scope, the engine's behaviour for this query (success of `execute`, the
batches the stream yields, and an optional failure injected after those
batches), the cleanup-call outcomes, the fresh name the temporary-file
facility picks, the writer's schema refinement (external, applied when
`update_features` is set), and the initial file system. -/
structure Env where
  cachingEnabled : Bool := true
  tableNames : List String := []
  scope : List (String × PyVal) := []
  execOk : Bool := true
  execErrMsg : String := ""
  batches : List Batch := []
  streamErr : Option PyErr := none
  cleanup : CleanupBehavior := {}
  tmpName : String := "/t/tmp0"
  refineFeatures : Features → List Batch → Features := fun f _ => f
  fs : FS := []

/-- Fallback fingerprint of `Dataset.from_file` (external `datasets`
constructor): only when the loaded arrow file carries no embedded
fingerprint in its schema metadata does the library generate one by hashing
the new dataset's own state (file, metadata, split) — modelled as an
injective stable encoding of the constructor arguments, disjoint from the
query-hash digests produced by `hexdigest`. -/
def encodeDatasetInfo (i : DatasetInfo) : String :=
  (match i.features with
   | some f => "F(" ++ encodeFeatures f ++ ")"
   | none => "None") ++ ";" ++
  (match i.taskTemplates with
   | some ts => "T(" ++ String.intercalate "," ts ++ ")"
   | none => "None")

def fromFileFingerprint (path : String) (info : DatasetInfo) (split : Option String) : String :=
  "generated:" ++ path ++ ";" ++ encodeDatasetInfo info ++ ";" ++
  (match split with | some s => s | none => "None")

/-- `Dataset.from_file(path, info=info, split=split)`: a memory-mapped
dataset backed by the given cache file.  `Dataset.__init__` restores the
fingerprint that `ArrowWriter` embedded in the arrow file's schema metadata
when no explicit fingerprint is passed; only for a file without such
metadata does it fall back to a state-generated fingerprint. -/
def datasetFromFile (fs : FS) (path : String) (info : DatasetInfo) (split : Option String) : Dataset :=
  match FS.getFile fs path with
  | some (.arrow feats fp bs) =>
    { fingerprint := fp
      features := match info.features with | some f => f | none => feats
      cacheFiles := [path]
      indices := none
      data := bs.length
      info := info
      split := split
      cacheDir := "" }
  | _ =>
    { fingerprint := fromFileFingerprint path info split
      features := match info.features with | some f => f | none => []
      cacheFiles := [path]
      indices := none
      data := 0
      info := info
      split := split
      cacheDir := "" }

/-- `Dataset.from_buffer(buf, info=info)`: a purely in-memory dataset with no
backing cache file.  The fingerprint passed here is the one `query` stamps
right after construction (query.py line 231). -/
def datasetFromBuffer (bs : List Batch) (info : DatasetInfo) (fp : String) : Dataset :=
  { fingerprint := fp
    features := info.features.getD []
    cacheFiles := []
    indices := none
    data := bs.length
    info := info
    split := none
    cacheDir := "" }

/-- The outcome of one call: the returned dataset or the propagated error,
the final file system, and the event trace. -/
structure RunResult where
  result : Except PyErr Dataset
  fs : FS
  events : List Event

def RunResult.okDataset : RunResult → Option Dataset
  | ⟨.ok d, _, _⟩ => some d
  | _ => none

def RunResult.errValue : RunResult → Option PyErr
  | ⟨.error e, _, _⟩ => some e
  | _ => none

/-- The connection opened (and closed) by `_table_names_from_query`
(query.py lines 27-31) for table-name introspection. -/
def introspectionEvents : List Event := [.connOpen memDb, .connClose]

/-- The failure-path cleanup of the engine connection and its database file
(query.py lines 208-211): `db_file` is a string, never `None`, so the
`if db_file is not None` guard always passes; the file removal is guarded
only by an existence check. -/
def runStreamFailureDb (env : Env) (e0 : PyErr) (dbFile : String) (fs : FS)
    (ev : List Event) : RunResult :=
  match env.cleanup.connCloseErr with
  | some e2 => ⟨.error e2, fs, ev⟩
  | none =>
    let ev1 := ev ++ [Event.connClose]
    if FS.existsFile fs dbFile then
      match env.cleanup.dbRemoveErr with
      | some e2 => ⟨.error e2, fs, ev1⟩
      | none => ⟨.error e0, FS.removeFile fs dbFile, ev1 ++ [Event.fileRemove dbFile]⟩
    else ⟨.error e0, fs, ev1⟩

/-- The failure path of the consumption loop (query.py lines 201-212):
finalize the writer, close and delete the temporary file if one was created,
close the connection and delete the database file, then re-raise the
original error.  None of the cleanup calls is wrapped: if one of them
raises, that error propagates instead and the remaining steps are skipped. -/
def runStreamFailure (env : Env) (e0 : PyErr) (tmpFile : Option String) (dbFile : String)
    (fs : FS) (ev : List Event) : RunResult :=
  match env.cleanup.finalizeErr with
  | some e2 => ⟨.error e2, fs, ev⟩
  | none =>
    let ev1 := ev ++ [Event.writerFinalize]
    match tmpFile with
    | some t =>
      match env.cleanup.tmpCloseErr with
      | some e2 => ⟨.error e2, fs, ev1⟩
      | none =>
        let ev2 := ev1 ++ [Event.tmpClose]
        if FS.existsFile fs t then
          match env.cleanup.tmpRemoveErr with
          | some e2 => ⟨.error e2, fs, ev2⟩
          | none => runStreamFailureDb env e0 dbFile (FS.removeFile fs t) (ev2 ++ [Event.fileRemove t])
        else runStreamFailureDb env e0 dbFile fs ev2
    | none => runStreamFailureDb env e0 dbFile fs ev1

/-- The writer's seed schema and `update_features` flag
(query.py lines 134-139): the explicit `features` argument frozen, or the
schema of the Python local `dataset` (the LAST resolved dataset) with
refinement enabled; `NameError` when neither exists. -/
def writerSeed (a : Args) (dlast : Option Dataset) : Except PyErr (Features × Bool) :=
  match a.features with
  | some f => Except.ok (f, false)
  | none =>
    match dlast with
    | some d => Except.ok (d.features, true)
    | none => Except.error (PyErr.nameError "dataset")

/-- `init_buffer_and_writer` (query.py lines 132-163) plus the consumption
loop and both of its exits (lines 193-232).  `dlast` is the Python local
`dataset` — the variable left over from the resolution loop, i.e. the LAST
resolved dataset (`none` when the query references no tables, in which case
reading `dataset.features` raises `NameError`). -/
def runWrite (env : Env) (a : Args) (dlast : Option Dataset) (fp : String)
    (cfn : Option String) (dbFile : String) (fs : FS) (ev : List Event) : RunResult :=
  match writerSeed a dlast with
  | .error e => ⟨.error e, fs, ev⟩
  | .ok (wfeats, updF) =>
    let useBuffer := a.keepInMemory || cfn.isNone
    let tmpFile := if useBuffer then none else some env.tmpName
    let fs2 := if useBuffer then fs else FS.setFile fs env.tmpName (.tmp [])
    let evW := ev ++
      (if useBuffer then [Event.writerCreate wfeats updF none]
       else [Event.tmpCreate env.tmpName, Event.writerCreate wfeats updF (some env.tmpName)])
    let evB := evW ++ env.batches.map Event.writerWrite
    let fs3 := match tmpFile with
      | some t => FS.setFile fs2 t (.tmp env.batches)
      | none => fs2
    match env.streamErr with
    | some e0 => runStreamFailure env e0 tmpFile dbFile fs3 evB
    | none =>
      let finalFeats := if updF then env.refineFeatures wfeats env.batches else wfeats
      let moved : FS × List Event :=
        match tmpFile, cfn with
        | some t, some c =>
          (FS.setFile (FS.removeFile fs3 t) c (.arrow finalFeats fp env.batches),
           evB ++ [Event.tmpClose, Event.fileMove t c, Event.chmodFile c])
        | _, _ => (fs3, evB)
      let fs4 := moved.1
      let ev5 := moved.2 ++ [Event.connClose]
      let cleaned : FS × List Event :=
        if dbFile ≠ memDb ∧ FS.existsFile fs4 dbFile then
          (FS.removeFile fs4 dbFile, ev5 ++ [Event.fileRemove dbFile])
        else (fs4, ev5)
      let info : DatasetInfo := { features := some finalFeats, taskTemplates := none }
      match tmpFile, cfn with
      | some _, some c =>
        let r0 := datasetFromFile cleaned.1 c info none
        ⟨.ok { r0 with fingerprint := fp }, cleaned.1, cleaned.2⟩
      | _, _ => ⟨.ok (datasetFromBuffer env.batches info fp), cleaned.1, cleaned.2⟩

/-- Connection and execution (query.py lines 180-191): the database is
file-backed exactly when a cache file name is available; on submission
failure the connection is closed and a just-created database file removed
before the engine error propagates. -/
def runExec (env : Env) (a : Args) (dlast : Option Dataset) (fp : String)
    (sqlSan : String) (tablesSan : List String) (cfn : Option String)
    (ev : List Event) : RunResult :=
  let dbFile := match cfn with | some c => withSuffixDb c | none => memDb
  let fs1 := if dbFile = memDb then env.fs else FS.setFile env.fs dbFile .db
  let ev1 := ev ++ [Event.connOpen dbFile] ++ tablesSan.map Event.tableRegister
  if env.execOk then
    runWrite env a dlast fp cfn dbFile fs1 (ev1 ++ [Event.execQuery sqlSan])
  else
    let ev2 := ev1 ++ [Event.connClose]
    if dbFile ≠ memDb ∧ FS.existsFile fs1 dbFile then
      ⟨.error (.engineError env.execErrMsg), FS.removeFile fs1 dbFile, ev2 ++ [Event.fileRemove dbFile]⟩
    else ⟨.error (.engineError env.execErrMsg), fs1, ev2⟩

/-- The effective `load_from_cache_file` flag (query.py line 111). -/
def effLoadFromCache (env : Env) (a : Args) : Bool :=
  match a.loadFromCacheFile with
  | some b => b
  | none => env.cachingEnabled

/-- The fingerprint-hash event, present exactly when no explicit
`new_fingerprint` override was given. -/
def hashEvents (a : Args) : List Event :=
  if a.newFingerprint.isNone then [Event.hashCompute] else []

/-- The query text after the table-name sanitization pass
(query.py lines 128-129). -/
def sanitizedSql (env : Env) (a : Args) : String :=
  env.tableNames.foldl (fun q tn => strReplace q tn (sanitizeName tn)) a.sqlQuery

/-- The sanitized table names (query.py line 130). -/
def sanitizedTables (env : Env) : List String :=
  env.tableNames.map sanitizeName

/-- Everything after successful table resolution (query.py lines 111-232):
default for `load_from_cache_file`, fingerprint computation, table-name
sanitization, the cache check (lines 167-178) with its reuse short-circuit,
and the execution/materialization pipeline. -/
def runResolved (env : Env) (a : Args) (datasets : List Dataset) : RunResult :=
  let lfcf := effLoadFromCache env a
  let fp := computeFingerprint a env.tableNames datasets
  let ev0 := introspectionEvents ++ hashEvents a
  let sqlSan := sanitizedSql env a
  let tablesSan := sanitizedTables env
  match datasets.getLast? with
  | some dlast =>
    if datasets.any (fun d => !d.cacheFiles.isEmpty) then
      let cfn := (a.cacheFileName).getD (cachePathFor dlast fp)
      if FS.existsFile env.fs cfn && lfcf then
        ⟨.ok (datasetFromFile env.fs cfn
            { dlast.info with features := a.features, taskTemplates := none } dlast.split),
         env.fs, ev0 ++ [Event.readCacheFile cfn]⟩
      else runExec env a (some dlast) fp sqlSan tablesSan (some cfn) ev0
    else runExec env a (some dlast) fp sqlSan tablesSan a.cacheFileName ev0
  | none => runExec env a none fp sqlSan tablesSan a.cacheFileName ev0

/-- The `query` call (query.py lines 38-232): argument validation, the
SELECT check, table-name introspection, table resolution, and the rest of
the pipeline. -/
def queryRun (env : Env) (a : Args) : RunResult :=
  if a.keepInMemory && a.cacheFileName.isSome then
    ⟨.error (.valueError "Please use either keep_in_memory or cache_file_name but not both."),
     env.fs, []⟩
  else if !isSelectQuery a.sqlQuery then
    ⟨.error (.valueError "The query must be a SELECT statement."), env.fs, []⟩
  else
    match resolveTables env.scope env.tableNames with
    | .error e => ⟨.error e, env.fs, introspectionEvents⟩
    | .ok datasets => runResolved env a datasets

/-! ### Shared fixtures -/

def featA : Features := [("a", "int64")]
def featB : Features := [("b", "string")]

/-- A file-backed input dataset. -/
def dsFile : Dataset :=
  { fingerprint := "fpD", features := featA, cacheFiles := ["/c/data.arrow"],
    indices := none, data := 10,
    info := { features := some featA, taskTemplates := none },
    split := some "train", cacheDir := "/c" }

/-- A purely in-memory input dataset (no backing cache files). -/
def dsMem : Dataset :=
  { fingerprint := "fpM", features := featA, cacheFiles := [],
    indices := none, data := 10,
    info := { features := some featA, taskTemplates := none },
    split := none, cacheDir := "" }

/-- A second in-memory dataset with a different schema. -/
def dsMemB : Dataset :=
  { fingerprint := "fpB", features := featB, cacheFiles := [],
    indices := none, data := 5,
    info := { features := some featB, taskTemplates := none },
    split := none, cacheDir := "" }

/-- An in-memory dataset carrying a row-selection overlay. -/
def dsOverlay : Dataset := { dsMem with indices := some () }

def eventIsExec : Event → Bool
  | .execQuery _ => true
  | _ => false

def eventIsConnOpen : Event → Bool
  | .connOpen _ => true
  | _ => false

/-- Events that create, read, move or delete a file. -/
def eventTouchesFile : Event → Bool
  | .readCacheFile _ => true
  | .tmpCreate _ => true
  | .fileMove _ _ => true
  | .chmodFile _ => true
  | .fileRemove _ => true
  | _ => false

def c1env : Env := { tableNames := ["d"], scope := [("d", PyVal.ds dsFile)], batches := [7, 8] }
def c1args : Args := { sqlQuery := "SELECT * FROM d LIMIT 2" }
def c1run1 : RunResult := queryRun c1env c1args
def c1run2 : RunResult := queryRun { c1env with fs := c1run1.fs } c1args

def c10path : String :=
  cachePathFor dsFile
    (computeFingerprint { sqlQuery := "SELECT * FROM d", keepInMemory := true } ["d"] [dsFile])
def c10env : Env :=
  { tableNames := ["d"], scope := [("d", PyVal.ds dsFile)],
    fs := [(c10path, FileData.arrow featA "fpPrev" [3])] }
def c10args : Args := { sqlQuery := "SELECT * FROM d", keepInMemory := true }

def eventIsWriterCreate : Event → Bool
  | .writerCreate _ _ _ => true
  | _ => false

/-- Seed schema and update flag of the first writer creation on a trace. -/
def writerCreateArgs : List Event → Option (Features × Bool)
  | [] => none
  | .writerCreate f u _ :: _ => some (f, u)
  | e :: rest =>
    match e with
    | .writerCreate f u _ => some (f, u)
    | _ => writerCreateArgs rest

def c5wenv : Env :=
  { tableNames := ["d1", "d2"],
    scope := [("d1", PyVal.ds dsMem), ("d2", PyVal.ds dsMemB)], batches := [9] }
def c5wargs : Args := { sqlQuery := "SELECT * FROM d1 JOIN d2 ON d1.a = d2.b" }

example : isSelectQuery "  SELECT * FROM d" = true := by decide
example : isSelectQuery "DROP TABLE d" = false := by decide
example : strReplace "SELECT * FROM d" "d" "" = "SELECT * FROM " := by decide
example : sanitizeName "obj.d" = "obj_d" := by decide
example : withSuffixDb "dir/cache-abc.arrow" = "dir/cache-abc.db" := by decide
example : splitDot "obj.d" = ["obj", "d"] := by decide

def c4args1 : Args := { sqlQuery := "SELECT x FROM d" }
def c4args2 : Args := { sqlQuery := "SELECT x FROM x" }

def c4wargs1 : Args := { sqlQuery := "SELECT * FROM d" }
def c4wargs2 : Args := { sqlQuery := "SELECT * FROM e" }

def c9env : Env :=
  { tableNames := ["d"], scope := [("d", PyVal.ds dsOverlay)], fs := [("/x", .plain)] }
def c9args : Args := { sqlQuery := "SELECT * FROM d" }

def c6cexEnv : Env := { tableNames := ["d"], scope := [("d", PyVal.ds dsMem)], batches := [4] }
def c6cexArgs : Args := { sqlQuery := "SELECT * FROM d", cacheFileName := some "/c/out.arrow" }

def c6wenv : Env := { tableNames := ["d"], scope := [("d", PyVal.ds dsMem)], batches := [4] }
def c6wargs : Args := { sqlQuery := "SELECT * FROM d" }

/-- Number of occurrences of an event on a trace. -/
def countEvent (e : Event) : List Event → Nat
  | [] => 0
  | x :: rest => (if x = e then 1 else 0) + countEvent e rest

def c2wenv : Env := { streamErr := some (.streamInterrupt 3), batches := [1, 2] }
def c2wargs : Args := { sqlQuery := "SELECT 1" }
def c2wrun : RunResult :=
  runWrite c2wenv c2wargs (some dsMem) "f" (some "/c/out.arrow") "/c/out.db"
    [("/c/out.arrow", FileData.plain)] []

def c2cexEnv : Env :=
  { tableNames := ["d"], scope := [("d", PyVal.ds dsMem)], batches := [1],
    streamErr := some (.streamInterrupt 0), fs := [("/c/out.arrow", FileData.plain)] }
def c2cexArgs : Args := { sqlQuery := "SELECT * FROM d", cacheFileName := some "/c/out.arrow" }

def c7cexEnv : Env :=
  { tableNames := ["d"], scope := [("d", PyVal.ds dsMem)], batches := [1],
    streamErr := some (.streamInterrupt 0),
    cleanup := { finalizeErr := some (.cleanupError 5) } }
def c7cexArgs : Args := { sqlQuery := "SELECT * FROM d", cacheFileName := some "/c/out.arrow" }

def c7wenv : Env :=
  { streamErr := some (.streamInterrupt 0),
    cleanup := { finalizeErr := some (.cleanupError 5) }, batches := [1] }
def c7wargs : Args := { sqlQuery := "SELECT 1" }
def c7wrun : RunResult :=
  runWrite c7wenv c7wargs (some dsMem) "f" (some "/c/o.arrow") "/c/o.db" [] []

/-! ### Helper lemmas -/

theorem existsFile_removeFile_self (fs : FS) (p : String) :
    FS.existsFile (FS.removeFile fs p) p = false := by
  induction fs with
  | nil => rfl
  | cons e rest ih =>
    by_cases h : e.1 = p <;> simp [FS.removeFile, FS.existsFile, h, ih]

theorem getFile_removeFile_of_ne (fs : FS) (p q : String) (h : p ≠ q) :
    FS.getFile (FS.removeFile fs p) q = FS.getFile fs q := by
  induction fs with
  | nil => rfl
  | cons e rest ih =>
    by_cases he : e.1 = p
    · have : ¬ e.1 = q := by rw [he]; exact h
      simp [FS.removeFile, FS.getFile, he, this, ih, h, Ne.symm h]
    · by_cases hq : e.1 = q <;>
        simp [FS.removeFile, FS.getFile, he, hq, ih, h, Ne.symm h]

theorem getFile_setFile_of_ne (fs : FS) (p q : String) (d : FileData) (h : p ≠ q) :
    FS.getFile (FS.setFile fs p d) q = FS.getFile fs q := by
  simp [FS.setFile, FS.getFile, h, getFile_removeFile_of_ne fs p q h]

theorem existsFile_removeFile_of_ne (fs : FS) (p q : String) (h : p ≠ q) :
    FS.existsFile (FS.removeFile fs p) q = FS.existsFile fs q := by
  induction fs with
  | nil => rfl
  | cons e rest ih =>
    by_cases he : e.1 = p
    · have : ¬ e.1 = q := by rw [he]; exact h
      simp [FS.removeFile, FS.existsFile, he, this, ih, h, Ne.symm h]
    · simp [FS.removeFile, FS.existsFile, he, ih, h, Ne.symm h]

theorem existsFile_setFile_of_ne (fs : FS) (p q : String) (d : FileData) (h : p ≠ q) :
    FS.existsFile (FS.setFile fs p d) q = FS.existsFile fs q := by
  simp [FS.setFile, FS.existsFile, h, existsFile_removeFile_of_ne fs p q h]

/-- Decomposition of the fingerprint loop (query.py lines 116-119): the pair
accumulator splits into the list of hashed dataset fingerprints and the
iterated table-name stripping of the query text. -/
theorem fingerprintFold_eq (l : List (String × Dataset)) (acc : List HashItem) (q : String) :
    l.foldl (fun (acc : List HashItem × String) (p : String × Dataset) =>
        (acc.1 ++ [HashItem.str p.2.fingerprint], strReplace acc.2 p.1 "")) (acc, q) =
      (acc ++ l.map (fun p => HashItem.str p.2.fingerprint),
       l.foldl (fun r p => strReplace r p.1 "") q) := by
  induction l generalizing acc q with
  | nil => simp
  | cons hd tl ih => simp [List.foldl_cons, ih]

theorem stripNames_zip (q : String) (l : List (String × Dataset)) :
    stripNames q (l.map Prod.fst) = l.foldl (fun r p => strReplace r p.1 "") q := by
  simp [stripNames, List.foldl_map]

/-! ### C3 -/

/-- C3: when `new_fingerprint` is `None`, the computed fingerprint is the hex
digest of a hash that folds in, in table order, each resolved dataset's own
fingerprint, then the query text with every occurrence of every table name
removed, then `writer_batch_size`, `features`, `disable_nullable` and the
fixed version tag `datasets_sql.query.query@1.0`; when `new_fingerprint` is
given, that value is used unchanged, with no further computation. -/
theorem computeFingerprint_spec (a : Args) (tns : List String) (ds : List Dataset) :
    computeFingerprint a tns ds =
      match a.newFingerprint with
      | some s => s
      | none =>
        hexdigest ((tns.zip ds).map (fun p => HashItem.str p.2.fingerprint) ++
          [HashItem.str (stripNames a.sqlQuery ((tns.zip ds).map Prod.fst)),
           numItem a.writerBatchSize, featsItem a.features,
           HashItem.bool a.disableNullable, HashItem.str queryFuncIdentifier]) := by
  cases hnf : a.newFingerprint with
  | some s => simp [computeFingerprint, hnf]
  | none => simp [computeFingerprint, hnf, fingerprintFold_eq, stripNames_zip]

/-! ### C4 -/

/-- C4 counterexample: renaming the referenced table `d` to `x` in
`SELECT x FROM d` (a plain textual rename of the table variable, bound to the
same dataset, all options equal) CHANGES the computed fingerprint, because
the stripping step removes every occurrence of the table name as a raw
substring: the column reference `x` is also removed once the table is named
`x`. -/
theorem fingerprint_rename_collision_cex :
    strReplace c4args1.sqlQuery "d" "x" = c4args2.sqlQuery ∧
    computeFingerprint c4args1 ["d"] [dsMem] ≠ computeFingerprint c4args2 ["x"] [dsMem] := by
  decide

/-- C4 (amended): renaming a referenced table variable bound to a dataset
with the same fingerprint yields the same fingerprint PROVIDED the stripped
query texts coincide — i.e. removing the old table names from the original
query and the new table names from the renamed query leaves the same
residual text (which holds for renames that do not collide with other
tokens of the query, and can fail otherwise). -/
theorem fingerprint_rename_independence (a1 a2 : Args) (tns1 tns2 : List String)
    (ds1 ds2 : List Dataset)
    (hfp : (tns1.zip ds1).map (fun p => p.2.fingerprint) =
      (tns2.zip ds2).map (fun p => p.2.fingerprint))
    (hstrip : stripNames a1.sqlQuery ((tns1.zip ds1).map Prod.fst) =
      stripNames a2.sqlQuery ((tns2.zip ds2).map Prod.fst))
    (hnf1 : a1.newFingerprint = none) (hnf2 : a2.newFingerprint = none)
    (hwbs : a1.writerBatchSize = a2.writerBatchSize)
    (hfeat : a1.features = a2.features)
    (hdn : a1.disableNullable = a2.disableNullable) :
    computeFingerprint a1 tns1 ds1 = computeFingerprint a2 tns2 ds2 := by
  have h1 : (tns1.zip ds1).map (fun p => HashItem.str p.2.fingerprint) =
      (tns2.zip ds2).map (fun p => HashItem.str p.2.fingerprint) := by
    have h2 := congrArg (List.map HashItem.str) hfp
    simpa [List.map_map, Function.comp] using h2
  simp only [computeFingerprint, hnf1, hnf2, fingerprintFold_eq]
  rw [← stripNames_zip, ← stripNames_zip, h1, hstrip, hwbs, hfeat, hdn]

/-- Witness for `fingerprint_rename_independence`: the benign rename `d` to
`e` in `SELECT * FROM d`, with the same bound dataset, keeps the
fingerprint. -/
theorem fingerprint_rename_independence_witness :
    computeFingerprint c4wargs1 ["d"] [dsMem] = computeFingerprint c4wargs2 ["e"] [dsMem] :=
  fingerprint_rename_independence c4wargs1 c4wargs2 ["d"] ["e"] [dsMem] [dsMem]
    (by decide) (by decide) rfl rfl rfl rfl rfl

/-! ### C8 -/

/-- C8: every query string that does not (after stripping and lowercasing)
start with `select` is rejected with the ValueError stating the query must
be a SELECT statement, before table resolution and before any side effect:
the run returns immediately with an unchanged file system and an empty
event trace.  (The only call ordered before this check is the pure
`keep_in_memory`/`cache_file_name` argument validation, hence the
hypothesis that that validation passes.) -/
theorem non_select_rejected_early (env : Env) (a : Args)
    (hcombo : (a.keepInMemory && a.cacheFileName.isSome) = false)
    (hq : isSelectQuery a.sqlQuery = false) :
    queryRun env a =
      ⟨.error (.valueError "The query must be a SELECT statement."), env.fs, []⟩ := by
  simp [queryRun, hcombo, hq]

/-- Witness for `non_select_rejected_early`: `DROP TABLE d`. -/
theorem non_select_rejected_early_witness :
    queryRun { tableNames := ["d"], scope := [("d", PyVal.ds dsMem)] }
        { sqlQuery := "DROP TABLE d" } =
      ⟨.error (.valueError "The query must be a SELECT statement."), [], []⟩ :=
  non_select_rejected_early _ _ (by decide) (by decide)

/-! ### C1 -/

/-- C1: querying a file-backed dataset twice with a fixed SELECT query and
default options: both calls succeed, both results carry the computed query
fingerprint — the first call stamps it on the materialized result
(query.py line 228) after the writer embedded it in the cache file's
schema metadata, and the second call's `Dataset.from_file` restores that
embedded fingerprint on the cache hit (line 178) — so the two fingerprints
are equal; the cache file paths are equal; and the second call reuses the
cache file written by the first instead of re-executing the query (its
trace is introspection, fingerprinting and the cache-file load, with no
query execution, and it returns the data the first call wrote). -/
theorem query_twice_cache_hit_fingerprints_equal :
    c1run1.okDataset.isSome = true ∧
    c1run2.okDataset.isSome = true ∧
    c1run1.okDataset.map Dataset.fingerprint =
      some (computeFingerprint c1args ["d"] [dsFile]) ∧
    c1run1.okDataset.map Dataset.fingerprint = c1run2.okDataset.map Dataset.fingerprint ∧
    c1run1.okDataset.map Dataset.cacheFiles = c1run2.okDataset.map Dataset.cacheFiles ∧
    c1run2.events.any eventIsExec = false ∧
    c1run2.events = introspectionEvents ++ [Event.hashCompute,
      Event.readCacheFile (cachePathFor dsFile (computeFingerprint c1args ["d"] [dsFile]))] ∧
    c1run1.okDataset.map Dataset.data = c1run2.okDataset.map Dataset.data := by
  decide

/-! ### C10 -/

/-- Reduction of `queryRun` in the cache-hit scenario: file-backed inputs,
derived cache path present on disk and `load_from_cache_file` true short
circuit to `Dataset.from_file`. -/
theorem queryRun_cache_hit (env : Env) (a : Args) (ds : List Dataset) (dlast : Dataset)
    (hcfn : a.cacheFileName = none)
    (hsel : isSelectQuery a.sqlQuery = true)
    (hres : resolveTables env.scope env.tableNames = .ok ds)
    (hlast : ds.getLast? = some dlast)
    (hany : ds.any (fun d => !d.cacheFiles.isEmpty) = true)
    (hlfcf : effLoadFromCache env a = true)
    (hex : FS.existsFile env.fs
        (cachePathFor dlast (computeFingerprint a env.tableNames ds)) = true) :
    queryRun env a =
      ⟨.ok (datasetFromFile env.fs
            (cachePathFor dlast (computeFingerprint a env.tableNames ds))
            { dlast.info with features := a.features, taskTemplates := none } dlast.split),
        env.fs,
        introspectionEvents ++ hashEvents a ++
          [Event.readCacheFile (cachePathFor dlast (computeFingerprint a env.tableNames ds))]⟩ := by
  simp [queryRun, runResolved, hcfn, hsel, hres, hlast, hany, hlfcf, hex]

/-- C10: when `keep_in_memory` is true but a cache file derived from the
fingerprint exists for file-backed inputs and `load_from_cache_file`
resolves to true, the call returns the dataset loaded from that cache file
(a file-backed result, via `Dataset.from_file`), and the run is identical
to the run with `keep_in_memory = false`: the cache-hit short-circuit never
consults `keep_in_memory`. -/
theorem cache_hit_ignores_keep_in_memory (env : Env) (a : Args) (ds : List Dataset)
    (dlast : Dataset)
    (_hkim : a.keepInMemory = true) (hcfn : a.cacheFileName = none)
    (hsel : isSelectQuery a.sqlQuery = true)
    (hres : resolveTables env.scope env.tableNames = .ok ds)
    (hlast : ds.getLast? = some dlast)
    (hany : ds.any (fun d => !d.cacheFiles.isEmpty) = true)
    (hlfcf : effLoadFromCache env a = true)
    (hex : FS.existsFile env.fs
        (cachePathFor dlast (computeFingerprint a env.tableNames ds)) = true) :
    queryRun env a =
      ⟨.ok (datasetFromFile env.fs
            (cachePathFor dlast (computeFingerprint a env.tableNames ds))
            { dlast.info with features := a.features, taskTemplates := none } dlast.split),
        env.fs,
        introspectionEvents ++ hashEvents a ++
          [Event.readCacheFile (cachePathFor dlast (computeFingerprint a env.tableNames ds))]⟩ ∧
    queryRun env a = queryRun env { a with keepInMemory := false } := by
  have key1 := queryRun_cache_hit env a ds dlast hcfn hsel hres hlast hany hlfcf hex
  have key2 := queryRun_cache_hit env { a with keepInMemory := false } ds dlast
    hcfn hsel hres hlast hany hlfcf hex
  exact ⟨key1, key1.trans (Eq.trans (by rfl) key2.symm)⟩

/-- Witness for `cache_hit_ignores_keep_in_memory` at a concrete cache-hit
scenario with `keep_in_memory = true`. -/
theorem cache_hit_ignores_keep_in_memory_witness :
    queryRun c10env c10args =
      ⟨.ok (datasetFromFile c10env.fs
            (cachePathFor dsFile (computeFingerprint c10args c10env.tableNames [dsFile]))
            { dsFile.info with features := c10args.features, taskTemplates := none } dsFile.split),
        c10env.fs,
        introspectionEvents ++ hashEvents c10args ++
          [Event.readCacheFile
            (cachePathFor dsFile (computeFingerprint c10args c10env.tableNames [dsFile]))]⟩ ∧
    queryRun c10env c10args = queryRun c10env { c10args with keepInMemory := false } :=
  cache_hit_ignores_keep_in_memory c10env c10args [dsFile] dsFile rfl rfl (by decide)
    rfl rfl (by decide) rfl (by decide)

/-! ### C9 -/

/-- C9 (amended): a call referencing a dataset with a non-trivial indices
mapping — like every other table-resolution failure — propagates the
ValueError, computes no fingerprint, reads and creates no file, opens no
database file, and leaves the file system untouched; the only engine
activity on the trace is the transient in-memory introspection connection
(`_table_names_from_query`) opened and closed before resolution. -/
theorem resolution_failure_no_io (env : Env) (a : Args) (e : PyErr)
    (hcomb : (a.keepInMemory && a.cacheFileName.isSome) = false)
    (hsel : isSelectQuery a.sqlQuery = true)
    (hres : resolveTables env.scope env.tableNames = .error e) :
    queryRun env a = ⟨.error e, env.fs, introspectionEvents⟩ := by
  simp [queryRun, hcomb, hsel, hres]

/-- Witness for `resolution_failure_no_io`: a dataset carrying an indices
mapping produces the overlay ValueError with untouched file system and only
the introspection connection on the trace. -/
theorem resolution_failure_no_io_witness :
    queryRun c9env c9args =
      ⟨.error (.valueError
          "The dataset d has an indices mapping. Please flatten the indices with .flatten_indices()."),
        c9env.fs, introspectionEvents⟩ :=
  resolution_failure_no_io c9env c9args _ rfl (by decide) rfl

/-- C9 counterexample: at the same overlay scenario the run does fail with
the overlay ValueError, but an engine connection IS opened beforehand — the
in-memory introspection connection of `_table_names_from_query`
(query.py lines 29-31) — refuting the claim's conjunct that no engine
connection is opened. -/
theorem overlay_opens_introspection_connection_cex :
    (queryRun c9env c9args).errValue =
      some (.valueError
        "The dataset d has an indices mapping. Please flatten the indices with .flatten_indices().") ∧
    (queryRun c9env c9args).events.any eventIsConnOpen = true := by
  decide

/-! ### C5 and C6: the in-memory (no backing cache files) route -/

theorem writerCreateArgs_append_of_none (l1 l2 : List Event)
    (h : writerCreateArgs l1 = none) :
    writerCreateArgs (l1 ++ l2) = writerCreateArgs l2 := by
  induction l1 with
  | nil => rfl
  | cons e rest ih =>
    cases e <;> simp [writerCreateArgs] at h ⊢ <;> exact ih h

theorem writerCreateArgs_hashEvents (a : Args) :
    writerCreateArgs (hashEvents a) = none := by
  unfold hashEvents
  split <;> rfl

theorem writerCreateArgs_registers (l : List String) :
    writerCreateArgs (l.map Event.tableRegister) = none := by
  induction l with
  | nil => rfl
  | cons x xs ih => simpa [writerCreateArgs] using ih

/-- Reduction of `queryRun` on the in-memory route: no input dataset has a
backing cache file, no explicit cache file name is given, execution and the
stream succeed — the cache block is skipped, the engine is in-memory, the
writer targets a buffer, the file system is untouched and the result is
built with `Dataset.from_buffer`. -/
theorem queryRun_inmemory_success (env : Env) (a : Args) (ds : List Dataset)
    (dlast : Dataset) (wf : Features) (updF : Bool)
    (hcfn : a.cacheFileName = none)
    (hsel : isSelectQuery a.sqlQuery = true)
    (hres : resolveTables env.scope env.tableNames = .ok ds)
    (hlast : ds.getLast? = some dlast)
    (hany : ds.any (fun d => !d.cacheFiles.isEmpty) = false)
    (hexec : env.execOk = true)
    (hstream : env.streamErr = none)
    (hws : writerSeed a (some dlast) = .ok (wf, updF)) :
    queryRun env a =
      ⟨.ok (datasetFromBuffer env.batches
          { features := some (if updF then env.refineFeatures wf env.batches else wf),
            taskTemplates := none }
          (computeFingerprint a env.tableNames ds)),
        env.fs,
        introspectionEvents ++ hashEvents a ++
          [Event.connOpen memDb] ++ (sanitizedTables env).map Event.tableRegister ++
          [Event.execQuery (sanitizedSql env a)] ++
          [Event.writerCreate wf updF none] ++
          env.batches.map Event.writerWrite ++ [Event.connClose]⟩ := by
  simp [queryRun, runResolved, runExec, runWrite, hcfn, hsel, hres, hlast, hany, hexec,
    hstream, hws]

/-- C5 counterexample: two resolved datasets with different schemas, no
explicit `features`: the first resolved dataset is `dsMem` (schema `featA`),
but the writer is seeded with the LAST resolved dataset's schema
(`dsMemB.features = featB`) — the closure variable `dataset` read by
`init_buffer_and_writer` (query.py line 136) is the loop leftover, i.e. the
last table, not the first. -/
theorem writer_seeded_from_last_not_first_cex :
    resolveTables c5wenv.scope c5wenv.tableNames = .ok [dsMem, dsMemB] ∧
    dsMem.features ≠ dsMemB.features ∧
    writerCreateArgs (queryRun c5wenv c5wargs).events = some (dsMemB.features, true) :=
  ⟨rfl, by decide, by decide⟩

/-- C5 (amended): on a run that reaches the writer, when `features` is not
given the streaming writer is seeded with the LAST resolved dataset's
schema and `update_features` is enabled; when `features` is given the
writer is frozen to that schema (`update_features` disabled). -/
theorem writer_schema_seed_spec (env : Env) (a : Args) (ds : List Dataset)
    (dlast : Dataset) (wf : Features) (updF : Bool)
    (hcfn : a.cacheFileName = none)
    (hsel : isSelectQuery a.sqlQuery = true)
    (hres : resolveTables env.scope env.tableNames = .ok ds)
    (hlast : ds.getLast? = some dlast)
    (hany : ds.any (fun d => !d.cacheFiles.isEmpty) = false)
    (hexec : env.execOk = true)
    (hstream : env.streamErr = none)
    (hws : writerSeed a (some dlast) = .ok (wf, updF)) :
    writerCreateArgs (queryRun env a).events = some (wf, updF) ∧
    (a.features = none → wf = dlast.features ∧ updF = true) ∧
    (∀ f, a.features = some f → wf = f ∧ updF = false) := by
  refine ⟨?_, ?_, ?_⟩
  · rw [queryRun_inmemory_success env a ds dlast wf updF hcfn hsel hres hlast hany hexec
      hstream hws]
    simp only [List.append_assoc]
    rw [writerCreateArgs_append_of_none introspectionEvents _ rfl,
      writerCreateArgs_append_of_none _ _ (writerCreateArgs_hashEvents a),
      writerCreateArgs_append_of_none [Event.connOpen memDb] _ rfl,
      writerCreateArgs_append_of_none _ _ (writerCreateArgs_registers _),
      writerCreateArgs_append_of_none [Event.execQuery (sanitizedSql env a)] _ rfl]
    rfl
  · intro hf
    simp [writerSeed, hf] at hws
    exact ⟨hws.1.symm, hws.2⟩
  · intro f hf
    simp [writerSeed, hf] at hws
    exact ⟨hws.1.symm, hws.2⟩

/-- Witness for `writer_schema_seed_spec`: the two-table scenario, writer
seeded with the last table's schema and refinement enabled. -/
theorem writer_schema_seed_spec_witness :
    writerCreateArgs (queryRun c5wenv c5wargs).events = some (dsMemB.features, true) ∧
    (c5wargs.features = none → dsMemB.features = dsMemB.features ∧ true = true) ∧
    (∀ f, c5wargs.features = some f → dsMemB.features = f ∧ true = false) :=
  writer_schema_seed_spec c5wenv c5wargs [dsMem, dsMemB] dsMemB dsMemB.features true
    rfl (by decide) rfl rfl (by decide) rfl rfl rfl

/-! ### C6 -/

/-- C6 counterexample: with purely in-memory inputs and an explicit
`cache_file_name`, the cache-reuse check is indeed skipped (no cache-file
load on the trace), but a cache file IS created at the explicit path and
the result is file-backed — refuting the claim's "no cache file is created
... including when the caller passed an explicit cache_file_name". -/
theorem inmemory_explicit_cache_file_created_cex :
    (queryRun c6cexEnv c6cexArgs).events.any
      (fun e => e = Event.readCacheFile "/c/out.arrow") = false ∧
    FS.getFile (queryRun c6cexEnv c6cexArgs).fs "/c/out.arrow" =
      some (.arrow featA (computeFingerprint c6cexArgs ["d"] [dsMem]) [4]) ∧
    (queryRun c6cexEnv c6cexArgs).okDataset.map Dataset.cacheFiles =
      some ["/c/out.arrow"] := by
  decide

/-- C6 (amended): when no input dataset has a backing cache file AND no
explicit `cache_file_name` is passed, caching is skipped entirely: no
cache-reuse load is performed, no file is created or removed (the file
system is untouched and the trace carries no file-touching event), and the
result is materialized in memory, with no backing cache files.  (With an
explicit `cache_file_name` the reuse check is still skipped but the result
is written to that file — see the counterexample.) -/
theorem inmemory_inputs_no_caching (env : Env) (a : Args) (ds : List Dataset)
    (dlast : Dataset) (wf : Features) (updF : Bool)
    (hcfn : a.cacheFileName = none)
    (hsel : isSelectQuery a.sqlQuery = true)
    (hres : resolveTables env.scope env.tableNames = .ok ds)
    (hlast : ds.getLast? = some dlast)
    (hany : ds.any (fun d => !d.cacheFiles.isEmpty) = false)
    (hexec : env.execOk = true)
    (hstream : env.streamErr = none)
    (hws : writerSeed a (some dlast) = .ok (wf, updF)) :
    (queryRun env a).fs = env.fs ∧
    (queryRun env a).events.all (fun e => !eventTouchesFile e) = true ∧
    (queryRun env a).okDataset.map Dataset.cacheFiles = some [] := by
  rw [queryRun_inmemory_success env a ds dlast wf updF hcfn hsel hres hlast hany hexec
    hstream hws]
  refine ⟨rfl, ?_, by simp [RunResult.okDataset, datasetFromBuffer]⟩
  cases hnf : a.newFingerprint <;>
    simp [List.all_append, List.all_map, Function.comp, eventTouchesFile,
      introspectionEvents, hashEvents, hnf, List.all_eq_true]

/-- Witness for `inmemory_inputs_no_caching`: a single in-memory dataset,
default options. -/
theorem inmemory_inputs_no_caching_witness :
    (queryRun c6wenv c6wargs).fs = c6wenv.fs ∧
    (queryRun c6wenv c6wargs).events.all (fun e => !eventTouchesFile e) = true ∧
    (queryRun c6wenv c6wargs).okDataset.map Dataset.cacheFiles = some [] :=
  inmemory_inputs_no_caching c6wenv c6wargs [dsMem] dsMem dsMem.features true
    rfl (by decide) rfl rfl (by decide) rfl rfl rfl

/-! ### C2 and C7: the failure path of the consumption loop -/

theorem existsFile_setFile_self (fs : FS) (p : String) (d : FileData) :
    FS.existsFile (FS.setFile fs p d) p = true := by
  simp [FS.setFile, FS.existsFile]

theorem existsFile_removeFile_of_not (fs : FS) (p q : String)
    (h : FS.existsFile fs q = false) :
    FS.existsFile (FS.removeFile fs p) q = false := by
  by_cases hpq : p = q
  · subst hpq; exact existsFile_removeFile_self fs p
  · rw [existsFile_removeFile_of_ne fs p q hpq]; exact h

theorem countEvent_append (e : Event) (l1 l2 : List Event) :
    countEvent e (l1 ++ l2) = countEvent e l1 + countEvent e l2 := by
  induction l1 with
  | nil => simp [countEvent]
  | cons x rest ih => simp [countEvent, ih, Nat.add_assoc]

theorem countEvent_map_writerWrite (e : Event) (h : ∀ b, Event.writerWrite b ≠ e)
    (l : List Batch) : countEvent e (l.map Event.writerWrite) = 0 := by
  induction l with
  | nil => rfl
  | cons b rest ih => simp [countEvent, h b, ih]

theorem countEvent_writes_writerFinalize (l : List Batch) :
    countEvent Event.writerFinalize (l.map Event.writerWrite) = 0 :=
  countEvent_map_writerWrite _ (fun b => by simp) l

theorem countEvent_writes_connClose (l : List Batch) :
    countEvent Event.connClose (l.map Event.writerWrite) = 0 :=
  countEvent_map_writerWrite _ (fun b => by simp) l

theorem countEvent_writes_tmpClose (l : List Batch) :
    countEvent Event.tmpClose (l.map Event.writerWrite) = 0 :=
  countEvent_map_writerWrite _ (fun b => by simp) l

/-- The engine cleanup of the failure path with succeeding cleanup calls:
the connection is closed and the database file removed when present, the
original error is re-raised, and nothing else changes. -/
theorem runStreamFailureDb_clean (env : Env) (e0 : PyErr) (dbFile : String)
    (fs : FS) (ev : List Event) (hclean : env.cleanup = {}) :
    (runStreamFailureDb env e0 dbFile fs ev).result = .error e0 ∧
    FS.existsFile (runStreamFailureDb env e0 dbFile fs ev).fs dbFile = false ∧
    (∀ q, q ≠ dbFile →
      FS.existsFile (runStreamFailureDb env e0 dbFile fs ev).fs q = FS.existsFile fs q) ∧
    (∀ q, q ≠ dbFile →
      FS.getFile (runStreamFailureDb env e0 dbFile fs ev).fs q = FS.getFile fs q) ∧
    countEvent Event.connClose (runStreamFailureDb env e0 dbFile fs ev).events =
      countEvent Event.connClose ev + 1 ∧
    (∀ e, e ≠ Event.connClose → e ≠ Event.fileRemove dbFile →
      countEvent e (runStreamFailureDb env e0 dbFile fs ev).events = countEvent e ev) := by
  by_cases hdb : FS.existsFile fs dbFile = true
  · have hr : runStreamFailureDb env e0 dbFile fs ev =
        ⟨.error e0, FS.removeFile fs dbFile,
          (ev ++ [Event.connClose]) ++ [Event.fileRemove dbFile]⟩ := by
      simp [runStreamFailureDb, hclean, hdb]
    rw [hr]
    refine ⟨rfl, existsFile_removeFile_self fs dbFile, ?_, ?_, ?_, ?_⟩
    · intro q hq; exact existsFile_removeFile_of_ne fs dbFile q (Ne.symm hq)
    · intro q hq; exact getFile_removeFile_of_ne fs dbFile q (Ne.symm hq)
    · simp [countEvent_append, countEvent]
    · intro e he1 he2
      simp [countEvent_append, countEvent, Ne.symm he1, Ne.symm he2]
  · have hdb' : FS.existsFile fs dbFile = false := by
      cases hfs : FS.existsFile fs dbFile with
      | true => exact absurd hfs hdb
      | false => rfl
    have hr : runStreamFailureDb env e0 dbFile fs ev =
        ⟨.error e0, fs, ev ++ [Event.connClose]⟩ := by
      simp [runStreamFailureDb, hclean, hdb']
    rw [hr]
    refine ⟨rfl, hdb', fun q _ => rfl, fun q _ => rfl, ?_, ?_⟩
    · simp [countEvent_append, countEvent]
    · intro e he1 _
      simp [countEvent_append, countEvent, Ne.symm he1]

/-- The failure path with a staged temporary file and succeeding cleanup
calls: finalize, close and delete the temporary file, then hand over to the
engine cleanup. -/
theorem runStreamFailure_clean_some (env : Env) (e0 : PyErr) (t dbFile : String)
    (fs : FS) (ev : List Event) (hclean : env.cleanup = {})
    (hex : FS.existsFile fs t = true) :
    runStreamFailure env e0 (some t) dbFile fs ev =
      runStreamFailureDb env e0 dbFile (FS.removeFile fs t)
        (ev ++ [Event.writerFinalize, Event.tmpClose, Event.fileRemove t]) := by
  simp [runStreamFailure, hclean, hex, List.append_assoc]

/-- The failure path without a temporary file and with succeeding cleanup
calls: finalize, then hand over to the engine cleanup. -/
theorem runStreamFailure_clean_none (env : Env) (e0 : PyErr) (dbFile : String)
    (fs : FS) (ev : List Event) (hclean : env.cleanup = {}) :
    runStreamFailure env e0 none dbFile fs ev =
      runStreamFailureDb env e0 dbFile fs (ev ++ [Event.writerFinalize]) := by
  simp [runStreamFailure, hclean]

/-- C2 (amended): for every failure raised while the batch stream is being
consumed (any exception, including a keyboard interrupt, injected after any
number of batches), provided the cleanup calls themselves succeed: before
the original error propagates to the caller, the writer is finalized, any
temporary file created is closed and deleted, the engine connection is
closed, no engine database file remains on durable storage — and the final
cache path is never created or modified by the call: whatever file the
final cache path held before the call (possibly none) is exactly what it
holds after.  (The claim's stronger "no file exists at the final cache
path" fails when a file already existed there before the call: see the
counterexample.) -/
theorem streamFailure_cleanup_spec (env : Env) (a : Args) (dlast : Option Dataset)
    (fp : String) (c : String) (dbFile : String) (fs : FS) (ev : List Event)
    (e0 : PyErr) (wf : Features) (updF : Bool)
    (hws : writerSeed a dlast = .ok (wf, updF))
    (hstream : env.streamErr = some e0)
    (hclean : env.cleanup = {}) :
    (runWrite env a dlast fp (some c) dbFile fs ev).result = .error e0 ∧
    FS.existsFile (runWrite env a dlast fp (some c) dbFile fs ev).fs dbFile = false ∧
    (a.keepInMemory = false →
      FS.existsFile (runWrite env a dlast fp (some c) dbFile fs ev).fs env.tmpName = false) ∧
    (c ≠ env.tmpName → c ≠ dbFile →
      FS.getFile (runWrite env a dlast fp (some c) dbFile fs ev).fs c = FS.getFile fs c) ∧
    countEvent Event.writerFinalize (runWrite env a dlast fp (some c) dbFile fs ev).events =
      countEvent Event.writerFinalize ev + 1 ∧
    countEvent Event.connClose (runWrite env a dlast fp (some c) dbFile fs ev).events =
      countEvent Event.connClose ev + 1 ∧
    (a.keepInMemory = false →
      countEvent Event.tmpClose (runWrite env a dlast fp (some c) dbFile fs ev).events =
        countEvent Event.tmpClose ev + 1) := by
  by_cases hkim : a.keepInMemory = true
  · have hred : runWrite env a dlast fp (some c) dbFile fs ev =
        runStreamFailureDb env e0 dbFile fs
          (ev ++ [Event.writerCreate wf updF none] ++ env.batches.map Event.writerWrite ++
            [Event.writerFinalize]) := by
      simp [runWrite, hws, hkim, hstream, hclean, runStreamFailure_clean_none,
        List.append_assoc]
    obtain ⟨r1, r2, r3, r4, r5, r6⟩ := runStreamFailureDb_clean env e0 dbFile fs
      (ev ++ [Event.writerCreate wf updF none] ++ env.batches.map Event.writerWrite ++
        [Event.writerFinalize]) hclean
    rw [hred]
    refine ⟨r1, r2, ?_, ?_, ?_, ?_, ?_⟩
    · intro hk; rw [hkim] at hk; exact absurd hk (by decide)
    · intro _ h2; exact r4 c h2
    · rw [r6 Event.writerFinalize (by simp) (by simp)]
      simp [countEvent_append, countEvent, countEvent_writes_writerFinalize,
        countEvent_writes_connClose, countEvent_writes_tmpClose]
    · rw [r5]
      simp [countEvent_append, countEvent, countEvent_writes_writerFinalize,
        countEvent_writes_connClose, countEvent_writes_tmpClose]
    · intro hk; rw [hkim] at hk; exact absurd hk (by decide)
  · have hkim' : a.keepInMemory = false := by
      cases hk : a.keepInMemory with
      | true => exact absurd hk hkim
      | false => rfl
    have hred : runWrite env a dlast fp (some c) dbFile fs ev =
        runStreamFailureDb env e0 dbFile
          (FS.removeFile (FS.setFile (FS.setFile fs env.tmpName (.tmp []))
            env.tmpName (.tmp env.batches)) env.tmpName)
          (ev ++ [Event.tmpCreate env.tmpName,
              Event.writerCreate wf updF (some env.tmpName)] ++
            env.batches.map Event.writerWrite ++
            [Event.writerFinalize, Event.tmpClose, Event.fileRemove env.tmpName]) := by
      simp [runWrite, hws, hkim', hstream, hclean, runStreamFailure_clean_some,
        existsFile_setFile_self, List.append_assoc]
    obtain ⟨r1, r2, r3, r4, r5, r6⟩ := runStreamFailureDb_clean env e0 dbFile
      (FS.removeFile (FS.setFile (FS.setFile fs env.tmpName (.tmp []))
        env.tmpName (.tmp env.batches)) env.tmpName)
      (ev ++ [Event.tmpCreate env.tmpName,
          Event.writerCreate wf updF (some env.tmpName)] ++
        env.batches.map Event.writerWrite ++
        [Event.writerFinalize, Event.tmpClose, Event.fileRemove env.tmpName]) hclean
    rw [hred]
    refine ⟨r1, r2, ?_, ?_, ?_, ?_, ?_⟩
    · intro _
      by_cases hc : env.tmpName = dbFile
      · exact (congrArg (FS.existsFile _) hc).trans r2
      · rw [r3 env.tmpName hc]; exact existsFile_removeFile_self _ _
    · intro h1 h2
      rw [r4 c h2, getFile_removeFile_of_ne _ _ _ (Ne.symm h1),
        getFile_setFile_of_ne _ _ _ _ (Ne.symm h1),
        getFile_setFile_of_ne _ _ _ _ (Ne.symm h1)]
    · rw [r6 Event.writerFinalize (by simp) (by simp)]
      simp [countEvent_append, countEvent, countEvent_writes_writerFinalize,
        countEvent_writes_connClose, countEvent_writes_tmpClose]
    · rw [r5]
      simp [countEvent_append, countEvent, countEvent_writes_writerFinalize,
        countEvent_writes_connClose, countEvent_writes_tmpClose]
    · intro _
      rw [r6 Event.tmpClose (by simp) (by simp)]
      simp [countEvent_append, countEvent, countEvent_writes_writerFinalize,
        countEvent_writes_connClose, countEvent_writes_tmpClose]

/-- Witness for `streamFailure_cleanup_spec`: a failure after two batches
with a pre-existing file at the final cache path: the original error
propagates, the temporary and database files are gone, the final cache path
still holds exactly its pre-existing content, and finalize, connection
close and temp close each happened once. -/
theorem streamFailure_cleanup_spec_witness :
    c2wrun.result = .error (.streamInterrupt 3) ∧
    FS.existsFile c2wrun.fs "/c/out.db" = false ∧
    FS.existsFile c2wrun.fs c2wenv.tmpName = false ∧
    FS.getFile c2wrun.fs "/c/out.arrow" =
      FS.getFile [("/c/out.arrow", FileData.plain)] "/c/out.arrow" ∧
    countEvent Event.writerFinalize c2wrun.events = 1 ∧
    countEvent Event.connClose c2wrun.events = 1 ∧
    countEvent Event.tmpClose c2wrun.events = 1 := by
  obtain ⟨r1, r2, r3, r4, r5, r6, r7⟩ := streamFailure_cleanup_spec c2wenv c2wargs
    (some dsMem) "f" "/c/out.arrow" "/c/out.db" [("/c/out.arrow", FileData.plain)] []
    (.streamInterrupt 3) dsMem.features true rfl rfl rfl
  exact ⟨r1, r2, r3 rfl, r4 (by decide) (by decide), r5, r6, r7 rfl⟩

/-- C2 counterexample: a stream failure in a call whose final cache path
already held a file before the call: cleanup succeeds (the staged temporary
file and the engine database file are gone) and the original error
propagates, but a file DOES exist at the final cache path — the
pre-existing one, untouched — refuting the claim's "no file (partial or
otherwise) exists at the final cache path". -/
theorem streamFailure_preexisting_final_file_cex :
    (queryRun c2cexEnv c2cexArgs).errValue = some (.streamInterrupt 0) ∧
    FS.existsFile (queryRun c2cexEnv c2cexArgs).fs "/t/tmp0" = false ∧
    FS.existsFile (queryRun c2cexEnv c2cexArgs).fs "/c/out.db" = false ∧
    FS.existsFile (queryRun c2cexEnv c2cexArgs).fs "/c/out.arrow" = true := by
  decide

/-! ### C7 -/

/-- C7 counterexample: when `writer.finalize()` itself raises on the
failure path, that cleanup error — not the original stream error —
propagates to the caller, and the remaining cleanup is skipped (the staged
temporary file is left behind): cleanup errors are NOT suppressed. -/
theorem cleanup_error_not_suppressed_cex :
    (queryRun c7cexEnv c7cexArgs).errValue = some (.cleanupError 5) ∧
    (queryRun c7cexEnv c7cexArgs).errValue ≠ some (.streamInterrupt 0) ∧
    FS.existsFile (queryRun c7cexEnv c7cexArgs).fs "/t/tmp0" = true := by
  decide

/-- C7 (amended): errors raised by the cleanup actions of the failure path
are not caught: if `writer.finalize()` raises, that error propagates to the
caller in place of the original stream error and the remaining cleanup
steps are skipped — in particular a staged temporary file is left behind.
The file deletions are merely guarded by existence checks
(`os.path.exists`), which is not error suppression. -/
theorem cleanup_error_propagates (env : Env) (a : Args) (dlast : Option Dataset)
    (fp : String) (cfn : Option String) (dbFile : String) (fs : FS) (ev : List Event)
    (e0 e2 : PyErr) (wf : Features) (updF : Bool)
    (hws : writerSeed a dlast = .ok (wf, updF))
    (hstream : env.streamErr = some e0)
    (hfin : env.cleanup.finalizeErr = some e2) :
    (runWrite env a dlast fp cfn dbFile fs ev).result = .error e2 ∧
    ((a.keepInMemory || cfn.isNone) = false →
      FS.existsFile (runWrite env a dlast fp cfn dbFile fs ev).fs env.tmpName = true) := by
  constructor
  · by_cases hbuf : (a.keepInMemory || cfn.isNone) = true
    · simp [runWrite, hws, hstream, hbuf, runStreamFailure, hfin]
    · have hbuf' : (a.keepInMemory || cfn.isNone) = false := by
        cases hb : (a.keepInMemory || cfn.isNone) with
        | true => exact absurd hb hbuf
        | false => rfl
      simp [runWrite, hws, hstream, hbuf', runStreamFailure, hfin]
  · intro hbuf
    simp [runWrite, hws, hstream, hbuf, runStreamFailure, hfin, existsFile_setFile_self]

/-- Witness for `cleanup_error_propagates`: a concrete failing finalize on
the failure path, with a staged temporary file. -/
theorem cleanup_error_propagates_witness :
    c7wrun.result = .error (.cleanupError 5) ∧
    FS.existsFile c7wrun.fs "/t/tmp0" = true := by
  obtain ⟨r1, r2⟩ := cleanup_error_propagates c7wenv c7wargs (some dsMem) "f"
    (some "/c/o.arrow") "/c/o.db" [] [] (.streamInterrupt 0) (.cleanupError 5)
    dsMem.features true rfl rfl rfl
  exact ⟨r1, r2 rfl⟩

end DSQL
